import Mathlib

/-!
# Shallow embedding of `src/iocore/net/quic/QUICPacket.cc`

Definitions mirror the source file: the `QUICPacketLongHeader` /
`QUICPacketShortHeader` variants (parsed and built modes), the `QUICPacket`
container, the `QUICPacketFactory` and the `QUICPacketNumberGenerator`.
Byte buffers are `List Nat` with every byte reduced mod 256 at read/write
sites; machine integers are `Nat` with explicit `% 2^w` where overflow can
occur.

The companion declarations of `QUICPacket.h` / `QUICTypes.h` /
`QUICTypes.cc` (enum numerals, the `QUICTypeUtil` field codecs,
`QUIC_SUPPORTED_VERSIONS`, `fnv1a`, the `QUICCrypto::encrypt` contract and
default member initializers) are not part of the given source; those are
modelled from the spec and carry a `Modelled from the spec:` doc comment.
-/

namespace QUIC

/-- Modelled from the spec: the `QUICPacketType` enumeration of `QUICTypes.h`
is not in the given source. The spec lists the closed enumeration
`VersionNegotiation, ClientInitial, ServerStatelessRetry, ServerCleartext,
ClientCleartext, ZeroRttProtected, OneRttProtectedPhase0,
OneRttProtectedPhase1, StatelessReset, Uninitialized`; numerals follow the
listed order. -/
inductive QUICPacketType where
  | VERSION_NEGOTIATION
  | CLIENT_INITIAL
  | SERVER_STATELESS_RETRY
  | SERVER_CLEARTEXT
  | CLIENT_CLEARTEXT
  | ZERO_RTT_PROTECTED
  | ONE_RTT_PROTECTED_KEY_PHASE_0
  | ONE_RTT_PROTECTED_KEY_PHASE_1
  | STATELESS_RESET
  | UNINITIALIZED
  deriving DecidableEq, Repr

/-- Numeric value of a `QUICPacketType` (order of declaration). -/
def QUICPacketType.toNat : QUICPacketType → Nat
  | .VERSION_NEGOTIATION => 0
  | .CLIENT_INITIAL => 1
  | .SERVER_STATELESS_RETRY => 2
  | .SERVER_CLEARTEXT => 3
  | .CLIENT_CLEARTEXT => 4
  | .ZERO_RTT_PROTECTED => 5
  | .ONE_RTT_PROTECTED_KEY_PHASE_0 => 6
  | .ONE_RTT_PROTECTED_KEY_PHASE_1 => 7
  | .STATELESS_RESET => 8
  | .UNINITIALIZED => 9

/-- `static_cast<QUICPacketType>(n)` for an in-range numeral. -/
def QUICPacketType.fromNat : Nat → QUICPacketType
  | 0 => .VERSION_NEGOTIATION
  | 1 => .CLIENT_INITIAL
  | 2 => .SERVER_STATELESS_RETRY
  | 3 => .SERVER_CLEARTEXT
  | 4 => .CLIENT_CLEARTEXT
  | 5 => .ZERO_RTT_PROTECTED
  | 6 => .ONE_RTT_PROTECTED_KEY_PHASE_0
  | 7 => .ONE_RTT_PROTECTED_KEY_PHASE_1
  | 8 => .STATELESS_RESET
  | _ => .UNINITIALIZED

/-- Modelled from the spec: `QUICKeyPhase` of `QUICTypes.h` is not in the
given source; the spec gives `Phase0`, `Phase1`, `Uninitialized`. -/
inductive QUICKeyPhase where
  | PHASE_0
  | PHASE_1
  | PHASE_UNINITIALIZED
  deriving DecidableEq, Repr

/-- Modelled from the spec: `QUICPacketShortHeaderType` of `QUICTypes.h` is
not in the given source. The spec's wire table fixes the packet-number
width selector values `0b01 = 1 byte, 0b10 = 2 bytes, 0b11 = 4 bytes`, so
`ONE = 1`, `TWO = 2`, `THREE = 3`. -/
inductive QUICPacketShortHeaderType where
  | ONE
  | TWO
  | THREE
  deriving DecidableEq, Repr

/-- Numeric value of the width selector (`ONE = 1`, `TWO = 2`, `THREE = 3`). -/
def QUICPacketShortHeaderType.toNat : QUICPacketShortHeaderType → Nat
  | .ONE => 1
  | .TWO => 2
  | .THREE => 3

/-- Modelled from the spec: `QUICTypeUtil::write_*` of `QUICTypes.cc` is not
in the given source. The wire table specifies big-endian fixed-width
fields; `writeUIntBE v n` is the `n`-byte big-endian encoding of
`v % 2^(8*n)`. -/
def writeUIntBE (v : Nat) : Nat → List Nat
  | 0 => []
  | Nat.succ n => (v / 256 ^ n % 256) :: writeUIntBE v n

/-- Modelled from the spec: `QUICTypeUtil::read_*` of `QUICTypes.cc` is not
in the given source. Reads a big-endian integer from a byte list (each
byte reduced mod 256). -/
def readBytesBE (l : List Nat) : Nat :=
  l.foldl (fun acc b => acc * 256 + b % 256) 0

/-- Read an `n`-byte big-endian field of `l` starting at byte offset `off`. -/
def readFieldBE (l : List Nat) (off n : Nat) : Nat :=
  readBytesBE ((l.drop off).take n)

theorem writeUIntBE_length (v n : Nat) : (writeUIntBE v n).length = n := by
  induction n generalizing v with
  | zero => rfl
  | succ k ih => simp [writeUIntBE, ih]

theorem writeUIntBE_lt (v n : Nat) : ∀ b ∈ writeUIntBE v n, b < 256 := by
  induction n generalizing v with
  | zero => intro b hb; simp [writeUIntBE] at hb
  | succ k ih =>
    intro b hb
    simp only [writeUIntBE, List.mem_cons] at hb
    rcases hb with h | h
    · subst h; exact Nat.mod_lt _ (by norm_num)
    · exact ih v b h

theorem readBytesBE_append_acc (l : List Nat) (a : Nat) :
    l.foldl (fun acc b => acc * 256 + b % 256) a =
      a * 256 ^ l.length + readBytesBE l := by
  induction l generalizing a with
  | nil => simp [readBytesBE]
  | cons x xs ih =>
    simp only [List.foldl_cons, readBytesBE, List.length_cons]
    rw [ih, ih (0 * 256 + x % 256)]
    ring

/-- Big-endian decode inverts big-endian encode up to truncation. -/
theorem readBytesBE_writeUIntBE (v n : Nat) :
    readBytesBE (writeUIntBE v n) = v % 256 ^ n := by
  induction n generalizing v with
  | zero => simp [writeUIntBE, readBytesBE, Nat.mod_one]
  | succ k ih =>
    simp only [writeUIntBE, readBytesBE, List.foldl_cons]
    rw [readBytesBE_append_acc, writeUIntBE_length]
    have hacc : 0 * 256 + v / 256 ^ k % 256 % 256 = v / 256 ^ k % 256 := by omega
    rw [hacc]
    rw [ih v]
    have hmod : v % 256 ^ (k + 1) = v % 256 ^ k + 256 ^ k * (v / 256 ^ k % 256) := by
      rw [pow_succ]; exact Nat.mod_mul
    rw [hmod]
    ring

/-- First byte of a wire buffer, reduced to a `uint8` value. -/
def hdByte (b : List Nat) : Nat :=
  b.headD 0 % 256

/-- Modelled from the spec: `QUICTypeUtil::hasLongHeader` of `QUICTypes.cc`
is not in the given source; spec 4.1: `load` "inspects the first byte's
high bit to choose variant". -/
def hasLongHeader (b : List Nat) : Bool :=
  (hdByte b).testBit 7

/-- `QUICPacketLongHeader` state: either a parsed view over borrowed wire
bytes (`buf = some b`) or a built value holding the stored fields
(`buf = none`), mirroring the `_buf` / field members of the C++ class. -/
structure QUICPacketLongHeader where
  buf : Option (List Nat)
  stType : QUICPacketType
  stHasConnectionId : Bool
  stConnectionId : Nat
  stPacketNumber : Nat
  stHasVersion : Bool
  stVersion : Nat
  stPayload : List Nat
  stPayloadLen : Nat
  deriving Repr

/-- Parsed-mode constructor `QUICPacketLongHeader(buf, len)`: records the
borrowed buffer; the stored fields are never read in this mode. -/
def QUICPacketLongHeader.parse (b : List Nat) : QUICPacketLongHeader :=
  { buf := some b, stType := .UNINITIALIZED, stHasConnectionId := false,
    stConnectionId := 0, stPacketNumber := 0, stHasVersion := false,
    stVersion := 0, stPayload := [], stPayloadLen := 0 }

/-- Built-mode constructor, `QUICPacket.cc` lines 72–83. -/
def QUICPacketLongHeader.build (type : QUICPacketType) (connection_id : Nat)
    (packet_number : Nat) (version : Nat) (payload : List Nat) (len : Nat) :
    QUICPacketLongHeader :=
  { buf := none, stType := type, stHasConnectionId := true,
    stConnectionId := connection_id, stPacketNumber := packet_number,
    stHasVersion := true, stVersion := version, stPayload := payload,
    stPayloadLen := len }

/-- `QUICPacketLongHeader::type`, lines 85–98: parsed mode masks the first
byte with `0x7F` and validates against `UNINITIALIZED`'s numeral. -/
def QUICPacketLongHeader.type (h : QUICPacketLongHeader) : QUICPacketType :=
  match h.buf with
  | some b =>
      let t := hdByte b % 128
      if t < QUICPacketType.UNINITIALIZED.toNat then QUICPacketType.fromNat t
      else QUICPacketType.UNINITIALIZED
  | none => h.stType

/-- `QUICPacketLongHeader::connection_id`, lines 100–108
(`OFFSET_CONNECTION_ID = 1`, 8 bytes). -/
def QUICPacketLongHeader.connection_id (h : QUICPacketLongHeader) : Nat :=
  match h.buf with
  | some b => readFieldBE b 1 8
  | none => h.stConnectionId

/-- `QUICPacketLongHeader::packet_number`, lines 110–118
(`OFFSET_PACKET_NUMBER = 9`, 4 bytes). -/
def QUICPacketLongHeader.packet_number (h : QUICPacketLongHeader) : Nat :=
  match h.buf with
  | some b => readFieldBE b 9 4
  | none => h.stPacketNumber

/-- `QUICPacketLongHeader::has_version`, lines 120–124. -/
def QUICPacketLongHeader.has_version (_ : QUICPacketLongHeader) : Bool :=
  true

/-- `QUICPacketLongHeader::version`, lines 126–134 (`OFFSET_VERSION = 13`). -/
def QUICPacketLongHeader.version (h : QUICPacketLongHeader) : Nat :=
  match h.buf with
  | some b => readFieldBE b 13 4
  | none => h.stVersion

/-- `QUICPacketLongHeader::has_connection_id`, lines 136–140. -/
def QUICPacketLongHeader.has_connection_id (_ : QUICPacketLongHeader) : Bool :=
  true

/-- `QUICPacketLongHeader::payload`, lines 142–150 (`OFFSET_PAYLOAD = 17`). -/
def QUICPacketLongHeader.payload (h : QUICPacketLongHeader) : List Nat :=
  match h.buf with
  | some b => b.drop 17
  | none => h.stPayload

/-- `QUICPacketLongHeader::has_key_phase`, lines 152–156. -/
def QUICPacketLongHeader.has_key_phase (_ : QUICPacketLongHeader) : Bool :=
  false

/-- `QUICPacketLongHeader::key_phase`, lines 158–162. -/
def QUICPacketLongHeader.key_phase (_ : QUICPacketLongHeader) : QUICKeyPhase :=
  QUICKeyPhase.PHASE_0

/-- `QUICPacketLongHeader::length`, lines 164–168 (`LONGHEADER_LENGTH = 17`). -/
def QUICPacketLongHeader.length (_ : QUICPacketLongHeader) : Nat :=
  17

/-- `QUICPacketLongHeader::store`, lines 170–184: flag byte
`0x80 + type`, then 8-byte connection id, 4-byte packet number, 4-byte
version. Returns the written bytes (the C++ out-parameters `buf`/`len`). -/
def QUICPacketLongHeader.store (h : QUICPacketLongHeader) : List Nat :=
  ((0x80 + h.stType.toNat) % 256) ::
    (writeUIntBE h.stConnectionId 8 ++
      (writeUIntBE h.stPacketNumber 4 ++ writeUIntBE h.stVersion 4))

/-- `QUICPacketShortHeader` state, parsed/built as for the long header. -/
structure QUICPacketShortHeader where
  buf : Option (List Nat)
  stType : QUICPacketType
  stHasKeyPhase : Bool
  stKeyPhase : QUICKeyPhase
  stHasConnectionId : Bool
  stConnectionId : Nat
  stPacketNumber : Nat
  stPacketNumberType : QUICPacketShortHeaderType
  stPayload : List Nat
  stPayloadLen : Nat
  deriving Repr

/-- Parsed-mode constructor `QUICPacketShortHeader(buf, len)`. -/
def QUICPacketShortHeader.parse (b : List Nat) : QUICPacketShortHeader :=
  { buf := some b, stType := .UNINITIALIZED, stHasKeyPhase := false,
    stKeyPhase := .PHASE_UNINITIALIZED, stHasConnectionId := false,
    stConnectionId := 0, stPacketNumber := 0, stPacketNumberType := .ONE,
    stPayload := [], stPayloadLen := 0 }

/-- Key-phase selection in the built-mode constructors, lines 196–203 and
225–232: phase from the one-RTT type, else the `ink_assert(false)` branch
leaves `PHASE_UNINITIALIZED`. -/
def keyPhaseOfType (type : QUICPacketType) : QUICKeyPhase :=
  if type = QUICPacketType.ONE_RTT_PROTECTED_KEY_PHASE_0 then .PHASE_0
  else if type = QUICPacketType.ONE_RTT_PROTECTED_KEY_PHASE_1 then .PHASE_1
  else .PHASE_UNINITIALIZED

/-- Width-selector choice in the built-mode constructors, lines 205–211 and
234–240: `≤ 0xFF → ONE`, `≤ 0xFFFF → TWO`, else `THREE`. -/
def pnTypeOfNumber (packet_number : Nat) : QUICPacketShortHeaderType :=
  if packet_number ≤ 0xFF then .ONE
  else if packet_number ≤ 0xFFFF then .TWO
  else .THREE

/-- Built-mode constructor without connection id, lines 188–212.
Modelled from the spec: `_has_connection_id`'s default member initializer
lives in the missing `QUICPacket.h`; the spec (3. Data model, short header)
makes connection-id absence the default for this overload. -/
def QUICPacketShortHeader.build1 (type : QUICPacketType) (packet_number : Nat)
    (payload : List Nat) (len : Nat) : QUICPacketShortHeader :=
  { buf := none, stType := type, stHasKeyPhase := true,
    stKeyPhase := keyPhaseOfType type, stHasConnectionId := false,
    stConnectionId := 0, stPacketNumber := packet_number,
    stPacketNumberType := pnTypeOfNumber packet_number,
    stPayload := payload, stPayloadLen := len }

/-- Built-mode constructor with connection id, lines 214–241. -/
def QUICPacketShortHeader.build2 (type : QUICPacketType) (connection_id : Nat)
    (packet_number : Nat) (payload : List Nat) (len : Nat) :
    QUICPacketShortHeader :=
  { buf := none, stType := type, stHasKeyPhase := true,
    stKeyPhase := keyPhaseOfType type, stHasConnectionId := true,
    stConnectionId := connection_id, stPacketNumber := packet_number,
    stPacketNumberType := pnTypeOfNumber packet_number,
    stPayload := payload, stPayloadLen := len }

/-- `QUICPacketShortHeader::key_phase`, lines 349–361: parsed mode tests
flag-byte bit 5 (`0x20`). -/
def QUICPacketShortHeader.key_phase (h : QUICPacketShortHeader) : QUICKeyPhase :=
  match h.buf with
  | some b => if (hdByte b).testBit 5 then .PHASE_1 else .PHASE_0
  | none => h.stKeyPhase

/-- `QUICPacketShortHeader::type`, lines 243–259: always derived from
`key_phase()`; the unreachable phase is the `ink_assert(false)` branch. -/
def QUICPacketShortHeader.type (h : QUICPacketShortHeader) : QUICPacketType :=
  match h.key_phase with
  | .PHASE_0 => .ONE_RTT_PROTECTED_KEY_PHASE_0
  | .PHASE_1 => .ONE_RTT_PROTECTED_KEY_PHASE_1
  | .PHASE_UNINITIALIZED => .UNINITIALIZED

/-- `QUICPacketShortHeader::_packet_numberLen`, lines 300–321: parsed mode
casts `buf[0] & 0x1F` to the selector enum; `ONE → 1`, `TWO → 2`,
`THREE → 4`, any other masked value hits the `ink_assert(false)` default
and returns 0. -/
def QUICPacketShortHeader.packet_numberLen (h : QUICPacketShortHeader) : Nat :=
  match h.buf with
  | some b =>
      let t := hdByte b % 32
      if t = 1 then 1 else if t = 2 then 2 else if t = 3 then 4 else 0
  | none =>
      match h.stPacketNumberType with
      | .ONE => 1
      | .TWO => 2
      | .THREE => 4

/-- `QUICPacketShortHeader::has_connection_id`, lines 323–331: parsed mode
tests flag-byte bit 6 (`0x40`). -/
def QUICPacketShortHeader.has_connection_id (h : QUICPacketShortHeader) : Bool :=
  match h.buf with
  | some b => (hdByte b).testBit 6
  | none => h.stHasConnectionId

/-- `QUICPacketShortHeader::connection_id`, lines 261–270 (after an
`ink_release_assert(has_connection_id())` in parsed mode, reads 8 bytes at
offset 1). -/
def QUICPacketShortHeader.connection_id (h : QUICPacketShortHeader) : Nat :=
  match h.buf with
  | some b => readFieldBE b 1 8
  | none => h.stConnectionId

/-- `QUICPacketShortHeader::packet_number`, lines 272–286: parsed mode reads
`_packet_numberLen()` bytes at offset 9 when a connection id is present,
else at offset 1. -/
def QUICPacketShortHeader.packet_number (h : QUICPacketShortHeader) : Nat :=
  match h.buf with
  | some b =>
      readFieldBE b (if h.has_connection_id then 9 else 1) h.packet_numberLen
  | none => h.stPacketNumber

/-- `QUICPacketShortHeader::has_version`, lines 288–292. -/
def QUICPacketShortHeader.has_version (_ : QUICPacketShortHeader) : Bool :=
  false

/-- `QUICPacketShortHeader::version`, lines 294–298. -/
def QUICPacketShortHeader.version (_ : QUICPacketShortHeader) : Nat :=
  0

/-- `QUICPacketShortHeader::has_key_phase`, lines 343–347. -/
def QUICPacketShortHeader.has_key_phase (_ : QUICPacketShortHeader) : Bool :=
  true

/-- `QUICPacketShortHeader::length`, lines 366–377:
`1 + (8 if connection id) + _packet_numberLen()`. -/
def QUICPacketShortHeader.length (h : QUICPacketShortHeader) : Nat :=
  1 + (if h.has_connection_id then 8 else 0) + h.packet_numberLen

/-- `QUICPacketShortHeader::payload`, lines 333–341. -/
def QUICPacketShortHeader.payload (h : QUICPacketShortHeader) : List Nat :=
  match h.buf with
  | some b => b.drop h.length
  | none => h.stPayload

/-- Byte width written by `store`'s switch on `_packet_number_type`,
lines 397–409. -/
def QUICPacketShortHeaderType.width : QUICPacketShortHeaderType → Nat
  | .ONE => 1
  | .TWO => 2
  | .THREE => 4

/-- `QUICPacketShortHeader::store`, lines 379–411: flag byte assembled from
`0x40` (connection id present), `0x20` (key phase 1) and the width
selector; then the optional 8-byte connection id; then the packet number
truncated to the selected width. -/
def QUICPacketShortHeader.store (h : QUICPacketShortHeader) : List Nat :=
  ((if h.stHasConnectionId then 0x40 else 0) +
      (if h.stKeyPhase = QUICKeyPhase.PHASE_1 then 0x20 else 0) +
      h.stPacketNumberType.toNat) ::
    ((if h.stHasConnectionId then writeUIntBE h.stConnectionId 8 else []) ++
      writeUIntBE h.stPacketNumber h.stPacketNumberType.width)

/-- The polymorphic header, a closed sum over the two variants. -/
inductive QUICPacketHeader where
  | long : QUICPacketLongHeader → QUICPacketHeader
  | short : QUICPacketShortHeader → QUICPacketHeader
  deriving Repr

/-- `QUICPacketHeader::load`, lines 40–48. -/
def QUICPacketHeader.load (b : List Nat) : QUICPacketHeader :=
  if hasLongHeader b then .long (QUICPacketLongHeader.parse b)
  else .short (QUICPacketShortHeader.parse b)

/-- `QUICPacketHeader::build` (long overload), lines 50–55. -/
def QUICPacketHeader.buildLong (type : QUICPacketType) (connection_id : Nat)
    (packet_number : Nat) (version : Nat) (payload : List Nat) (len : Nat) :
    QUICPacketHeader :=
  .long (QUICPacketLongHeader.build type connection_id packet_number version
    payload len)

/-- `QUICPacketHeader::build` (short overload, no connection id),
lines 57–61. -/
def QUICPacketHeader.buildShort1 (type : QUICPacketType) (packet_number : Nat)
    (payload : List Nat) (len : Nat) : QUICPacketHeader :=
  .short (QUICPacketShortHeader.build1 type packet_number payload len)

/-- `QUICPacketHeader::build` (short overload, with connection id),
lines 63–68. -/
def QUICPacketHeader.buildShort2 (type : QUICPacketType) (connection_id : Nat)
    (packet_number : Nat) (payload : List Nat) (len : Nat) : QUICPacketHeader :=
  .short (QUICPacketShortHeader.build2 type connection_id packet_number
    payload len)

def QUICPacketHeader.type : QUICPacketHeader → QUICPacketType
  | .long h => h.type
  | .short h => h.type

def QUICPacketHeader.connection_id : QUICPacketHeader → Nat
  | .long h => h.connection_id
  | .short h => h.connection_id

def QUICPacketHeader.has_connection_id : QUICPacketHeader → Bool
  | .long h => h.has_connection_id
  | .short h => h.has_connection_id

def QUICPacketHeader.packet_number : QUICPacketHeader → Nat
  | .long h => h.packet_number
  | .short h => h.packet_number

def QUICPacketHeader.has_version : QUICPacketHeader → Bool
  | .long h => h.has_version
  | .short h => h.has_version

def QUICPacketHeader.version : QUICPacketHeader → Nat
  | .long h => h.version
  | .short h => h.version

def QUICPacketHeader.has_key_phase : QUICPacketHeader → Bool
  | .long h => h.has_key_phase
  | .short h => h.has_key_phase

def QUICPacketHeader.key_phase : QUICPacketHeader → QUICKeyPhase
  | .long h => h.key_phase
  | .short h => h.key_phase

def QUICPacketHeader.length : QUICPacketHeader → Nat
  | .long h => h.length
  | .short h => h.length

def QUICPacketHeader.payload : QUICPacketHeader → List Nat
  | .long h => h.payload
  | .short h => h.payload

def QUICPacketHeader.store : QUICPacketHeader → List Nat
  | .long h => h.store
  | .short h => h.store

/-- The guard `type != ZERO_RTT_PROTECTED && type != ONE_RTT_PROTECTED_KEY_PHASE_0
&& type != ONE_RTT_PROTECTED_KEY_PHASE_1` that recurs (negated) in the
`QUICPacket` constructors, `payload_size` and `store`. -/
def isProtectedType (t : QUICPacketType) : Bool :=
  t = QUICPacketType.ZERO_RTT_PROTECTED ∨
    t = QUICPacketType.ONE_RTT_PROTECTED_KEY_PHASE_0 ∨
    t = QUICPacketType.ONE_RTT_PROTECTED_KEY_PHASE_1

/-- Modelled from the spec: `fnv1a` is declared outside the given source.
Spec 4.2: "FNV-1a, 64-bit, standard offset basis and prime". -/
def fnv1a64 (l : List Nat) : Nat :=
  l.foldl (fun h b => ((h ^^^ (b % 256)) * 1099511628211) % 2 ^ 64)
    14695981039346656037

/-- Little-endian byte encoding, used for the raw in-memory bytes of the
FNV-1a digest ("output as its 8 raw bytes in computation byte order"). -/
def writeUIntLE (v : Nat) : Nat → List Nat
  | 0 => []
  | Nat.succ n => v % 256 :: writeUIntLE (v / 256) n

/-- `QUICPacket` state: a header, the borrowed block for parsed packets,
the total size, the retransmittable flag, and the optional protected
payload (`_protected_payload` / `_protected_payload_size`). -/
structure QUICPacket where
  block : Option (List Nat)
  header : QUICPacketHeader
  size : Nat
  is_retransmittable : Bool
  protectedPayload : Option (List Nat)
  protectedPayloadSize : Nat
  deriving Repr

/-- Parsed-mode constructor `QUICPacket(IOBufferBlock*)`, lines 415–419. -/
def QUICPacket.parse (block : List Nat) : QUICPacket :=
  { block := some block, header := QUICPacketHeader.load block,
    size := block.length, is_retransmittable := false,
    protectedPayload := none, protectedPayloadSize := 0 }

/-- Total-size rule shared by the three build constructors, lines 421–455:
`header.length() + len`, plus `FNV1A_HASH_LEN = 8` unless the type is one
of the payload-protected kinds. -/
def packetSize (headerLen len : Nat) (type : QUICPacketType) : Nat :=
  headerLen + len + (if isProtectedType type then 0 else 8)

/-- Build constructor (long header), lines 421–431. -/
def QUICPacket.buildLong (type : QUICPacketType) (connection_id : Nat)
    (packet_number : Nat) (version : Nat) (payload : List Nat) (len : Nat)
    (retransmittable : Bool) : QUICPacket :=
  let header := QUICPacketHeader.buildLong type connection_id packet_number
    version payload len
  { block := none, header := header,
    size := packetSize header.length len type,
    is_retransmittable := retransmittable,
    protectedPayload := none, protectedPayloadSize := 0 }

/-- Build constructor (short header, no connection id), lines 433–443. -/
def QUICPacket.buildShort1 (type : QUICPacketType) (packet_number : Nat)
    (payload : List Nat) (len : Nat) (retransmittable : Bool) : QUICPacket :=
  let header := QUICPacketHeader.buildShort1 type packet_number payload len
  { block := none, header := header,
    size := packetSize header.length len type,
    is_retransmittable := retransmittable,
    protectedPayload := none, protectedPayloadSize := 0 }

/-- Build constructor (short header, with connection id), lines 445–455. -/
def QUICPacket.buildShort2 (type : QUICPacketType) (connection_id : Nat)
    (packet_number : Nat) (payload : List Nat) (len : Nat)
    (retransmittable : Bool) : QUICPacket :=
  let header := QUICPacketHeader.buildShort2 type connection_id packet_number
    payload len
  { block := none, header := header,
    size := packetSize header.length len type,
    is_retransmittable := retransmittable,
    protectedPayload := none, protectedPayloadSize := 0 }

/-- `QUICPacket::type`, lines 461–465. -/
def QUICPacket.type (p : QUICPacket) : QUICPacketType :=
  p.header.type

/-- `QUICPacket::connection_id`, lines 467–471. -/
def QUICPacket.connection_id (p : QUICPacket) : Nat :=
  p.header.connection_id

/-- `QUICPacket::packet_number`, lines 473–477. -/
def QUICPacket.packet_number (p : QUICPacket) : Nat :=
  p.header.packet_number

/-- `QUICPacket::payload`, lines 485–489. -/
def QUICPacket.payload (p : QUICPacket) : List Nat :=
  p.header.payload

/-- `QUICPacket::version`, lines 491–495. -/
def QUICPacket.version (p : QUICPacket) : Nat :=
  p.header.version

/-- `QUICPacket::header_size`, lines 509–513. -/
def QUICPacket.header_size (p : QUICPacket) : Nat :=
  p.header.length

/-- `QUICPacket::payload_size`, lines 515–525. `Nat` subtraction models the
`uint16_t` arithmetic; it never underflows on the built-packet flows the
theorems below cover, where `size ≥ header.length + (8 when unprotected)`
by construction. -/
def QUICPacket.payload_size (p : QUICPacket) : Nat :=
  if ¬ isProtectedType p.type then p.size - p.header.length - 8
  else p.size - p.header.length

/-- `QUICPacket::key_phase`, lines 527–531. -/
def QUICPacket.key_phase (p : QUICPacket) : QUICKeyPhase :=
  p.header.key_phase

/-- `QUICPacket::store`, lines 533–551: header bytes, then for unprotected
types the plaintext payload (`payload_size()` bytes) followed by the
8-byte FNV-1a digest of everything written so far, and for protected types
the previously recorded protected payload (`ink_assert(_protected_payload)`;
the model reads the recorded buffer, `getD []` standing for the asserted
non-null pointer). -/
def QUICPacket.store (p : QUICPacket) : List Nat :=
  let hdr := p.header.store
  if ¬ isProtectedType p.type then
    let body := hdr ++ p.payload.take p.payload_size
    body ++ writeUIntLE (fnv1a64 body) 8
  else
    hdr ++ (p.protectedPayload.getD []).take p.protectedPayloadSize

/-- `QUICPacket::store_header`, lines 553–557. -/
def QUICPacket.store_header (p : QUICPacket) : List Nat :=
  p.header.store

/-- `QUICPacket::set_protected_payload`, lines 567–572: unconditionally
records the ciphertext buffer and its length. -/
def QUICPacket.set_protected_payload (p : QUICPacket) (cipher_txt : List Nat)
    (cipher_txt_len : Nat) : QUICPacket :=
  { p with
    protectedPayload := some cipher_txt,
    protectedPayloadSize := cipher_txt_len }

/-- `QUICPacketNumberGenerator`: a single `uint64_t` counter. Every
reachable state keeps `current < 2^64`; `next` re-establishes it. -/
structure QUICPacketNumberGenerator where
  current : Nat
  deriving Repr

/-- Modelled from the spec: the counter's initial value is set outside the
given source; spec 8 ("N sequential next() calls on a fresh generator
return 0, 1, 2, …") fixes a fresh generator's counter at 0. -/
def QUICPacketNumberGenerator.fresh : QUICPacketNumberGenerator :=
  { current := 0 }

/-- `QUICPacketNumberGenerator::next`, lines 663–667: post-increment —
returns the current value, then increments it (wrapping as `uint64_t`). -/
def QUICPacketNumberGenerator.next (g : QUICPacketNumberGenerator) :
    Nat × QUICPacketNumberGenerator :=
  (g.current, { current := (g.current + 1) % 2 ^ 64 })

/-- Modelled from the spec: the external `QUICCrypto::encrypt` collaborator
(not part of the given source). Arguments: plaintext, plaintext length,
packet number, associated data, associated-data length, key phase.
`some ct` models a successful call that wrote ciphertext `ct` (of length
`ct.length`); `none` models failure. -/
def QUICCrypto : Type :=
  List Nat → Nat → Nat → List Nat → Nat → QUICKeyPhase → Option (List Nat)

/-- `QUICPacketFactory` state: the negotiated version and the packet-number
generator. The bound cipher module is passed explicitly to
`create_server_protected_packet`. -/
structure QUICPacketFactory where
  version : Nat
  packetNumberGenerator : QUICPacketNumberGenerator
  deriving Repr

/-- `QUICPacketFactory::create_version_negotiation_packet`, lines 581–598,
parameterized over `QUIC_SUPPORTED_VERSIONS` (modelled from the spec: the
list constant lives outside the given source; each entry is written as a
4-byte version field, in list order). -/
def QUICPacketFactory.create_version_negotiation_packet
    (supported : List Nat) (packet_sent_by_client : QUICPacket) : QUICPacket :=
  let len := 4 * supported.length
  let versions := (supported.map (fun v => writeUIntBE v 4)).flatten
  QUICPacket.buildLong QUICPacketType.VERSION_NEGOTIATION
    packet_sent_by_client.connection_id packet_sent_by_client.packet_number
    packet_sent_by_client.version versions len false

/-- `QUICPacketFactory::create_server_cleartext_packet`, lines 600–608. -/
def QUICPacketFactory.create_server_cleartext_packet (f : QUICPacketFactory)
    (connection_id : Nat) (payload : List Nat) (len : Nat)
    (retransmittable : Bool) : QUICPacket × QUICPacketFactory :=
  let (pn, g) := f.packetNumberGenerator.next
  (QUICPacket.buildLong QUICPacketType.SERVER_CLEARTEXT connection_id pn
      f.version payload len retransmittable,
    { f with packetNumberGenerator := g })

/-- `QUICPacketFactory::create_server_protected_packet`, lines 610–640:
builds a `ONE_RTT_PROTECTED_KEY_PHASE_0` packet, serializes its header as
associated data, invokes the cipher, and on success records the ciphertext
via `set_protected_payload`; on failure returns no packet (`nullptr`). -/
def QUICPacketFactory.create_server_protected_packet (f : QUICPacketFactory)
    (crypto : QUICCrypto) (connection_id : Nat) (payload : List Nat)
    (len : Nat) (retransmittable : Bool) :
    Option QUICPacket × QUICPacketFactory :=
  let (pn, g) := f.packetNumberGenerator.next
  let packet := QUICPacket.buildShort2
    QUICPacketType.ONE_RTT_PROTECTED_KEY_PHASE_0 connection_id pn payload len
    retransmittable
  let ad := packet.store_header
  match crypto packet.payload packet.payload_size packet.packet_number ad
      ad.length packet.key_phase with
  | some cipher_txt =>
      (some (packet.set_protected_payload cipher_txt cipher_txt.length),
        { f with packetNumberGenerator := g })
  | none => (none, { f with packetNumberGenerator := g })

/-- The exact cipher invocation `create_server_protected_packet` performs,
lines 626–631, as a standalone value (used to state its success/failure
contract). -/
def serverProtectedCryptoCall (f : QUICPacketFactory) (crypto : QUICCrypto)
    (connection_id : Nat) (payload : List Nat) (len : Nat)
    (retransmittable : Bool) : Option (List Nat) :=
  let pn := (f.packetNumberGenerator.next).1
  let packet := QUICPacket.buildShort2
    QUICPacketType.ONE_RTT_PROTECTED_KEY_PHASE_0 connection_id pn payload len
    retransmittable
  let ad := packet.store_header
  crypto packet.payload packet.payload_size packet.packet_number ad ad.length
    packet.key_phase

/-- `QUICPacketFactory::create_client_initial_packet`, lines 642–648. -/
def QUICPacketFactory.create_client_initial_packet (f : QUICPacketFactory)
    (connection_id : Nat) (version : Nat) (payload : List Nat) (len : Nat) :
    QUICPacket × QUICPacketFactory :=
  let (pn, g) := f.packetNumberGenerator.next
  (QUICPacket.buildLong QUICPacketType.CLIENT_INITIAL connection_id pn version
      payload len true,
    { f with packetNumberGenerator := g })

/-- `QUICPacketFactory::set_version`, lines 650–655 (after
`ink_assert(_version == 0)`). -/
def QUICPacketFactory.set_version (f : QUICPacketFactory)
    (negotiated_version : Nat) : QUICPacketFactory :=
  { f with version := negotiated_version }

/-- `N` sequential `next()` calls: the list of returned packet numbers in
call order, and the final generator state. -/
def QUICPacketNumberGenerator.nextN (g : QUICPacketNumberGenerator) :
    Nat → List Nat × QUICPacketNumberGenerator
  | 0 => ([], g)
  | Nat.succ n =>
      let (v, g1) := g.next
      let (vs, g2) := g1.nextN n
      (v :: vs, g2)

/-- A cipher stub that always succeeds, producing the fixed ciphertext
`[9, 8, 7]`. -/
def cryptoAlwaysOk : QUICCrypto :=
  fun _ _ _ _ _ _ => some [9, 8, 7]

/-- A cipher stub that always fails. -/
def cryptoAlwaysFail : QUICCrypto :=
  fun _ _ _ _ _ _ => none

/-! ## Supporting lemmas -/

theorem readFieldBE_zero_write (v w : Nat) (rest : List Nat) :
    readFieldBE (writeUIntBE v w ++ rest) 0 w = v % 256 ^ w := by
  unfold readFieldBE
  rw [List.drop_zero, List.take_left' (writeUIntBE_length v w),
    readBytesBE_writeUIntBE]

theorem QUICPacketType.toNat_lt (t : QUICPacketType) : t.toNat < 10 := by
  cases t <;> simp [QUICPacketType.toNat]

theorem QUICPacketType.fromNat_toNat (t : QUICPacketType)
    (h : t.toNat < QUICPacketType.UNINITIALIZED.toNat) :
    QUICPacketType.fromNat t.toNat = t := by
  cases t <;> simp_all [QUICPacketType.toNat, QUICPacketType.fromNat]

/-- Decoding the long-header flag byte `0x80 + type` recovers the type. -/
theorem typeMask_store (t : QUICPacketType) :
    (if (0x80 + t.toNat) % 256 % 128 < QUICPacketType.UNINITIALIZED.toNat
      then QUICPacketType.fromNat ((0x80 + t.toNat) % 256 % 128)
      else QUICPacketType.UNINITIALIZED) = t := by
  have h : t.toNat < 10 := t.toNat_lt
  have h256 : (0x80 + t.toNat) % 256 = 128 + t.toNat := by omega
  have h128 : (128 + t.toNat) % 128 = t.toNat := by omega
  rw [h256, h128]
  by_cases hu : t.toNat < QUICPacketType.UNINITIALIZED.toNat
  · rw [if_pos hu]; exact t.fromNat_toNat hu
  · rw [if_neg hu]
    have h9 : QUICPacketType.UNINITIALIZED.toNat = 9 := rfl
    rw [h9] at hu
    cases t <;> simp_all [QUICPacketType.toNat]

/-- The long-header flag byte has its high bit set. -/
theorem longFlag_testBit7 (t : QUICPacketType) :
    ((0x80 + t.toNat) % 256 % 256).testBit 7 = true := by
  have h : t.toNat < 10 := t.toNat_lt
  rw [Nat.testBit_to_div_mod]
  simp only [decide_eq_true_eq]
  omega

/-- `load ∘ store` on a built long header: the parsed view reproduces the
type and the three fixed-offset fields (connection id, packet number,
version), given that they fit their wire widths. -/
theorem long_roundtrip (t : QUICPacketType) (cid pn ver : Nat)
    (payload : List Nat) (len : Nat)
    (hcid : cid < 2 ^ 64) (hpn : pn < 2 ^ 32) (hver : ver < 2 ^ 32) :
    (QUICPacketHeader.load
        (QUICPacketLongHeader.build t cid pn ver payload len).store).type = t ∧
    (QUICPacketHeader.load
        (QUICPacketLongHeader.build t cid pn ver payload len).store).connection_id
      = cid ∧
    (QUICPacketHeader.load
        (QUICPacketLongHeader.build t cid pn ver payload len).store).packet_number
      = pn ∧
    (QUICPacketHeader.load
        (QUICPacketLongHeader.build t cid pn ver payload len).store).version
      = ver := by
  have hw : (QUICPacketLongHeader.build t cid pn ver payload len).store =
      ((0x80 + t.toNat) % 256) ::
        (writeUIntBE cid 8 ++ (writeUIntBE pn 4 ++ writeUIntBE ver 4)) := rfl
  have hlong : hasLongHeader
      ((QUICPacketLongHeader.build t cid pn ver payload len).store) = true := by
    rw [hw]
    unfold hasLongHeader hdByte
    simp only [List.headD_cons]
    exact longFlag_testBit7 t
  have hload : QUICPacketHeader.load
      ((QUICPacketLongHeader.build t cid pn ver payload len).store) =
      QUICPacketHeader.long (QUICPacketLongHeader.parse
        ((QUICPacketLongHeader.build t cid pn ver payload len).store)) := by
    unfold QUICPacketHeader.load
    rw [hlong]
    simp
  rw [hload]
  refine ⟨?_, ?_, ?_, ?_⟩
  · show (QUICPacketLongHeader.parse _).type = t
    unfold QUICPacketLongHeader.parse QUICPacketLongHeader.type
    simp only [hw, hdByte, List.headD_cons]
    rw [Nat.mod_mod_of_dvd _ (dvd_refl 256)]
    exact typeMask_store t
  · show (QUICPacketLongHeader.parse _).connection_id = cid
    unfold QUICPacketLongHeader.parse QUICPacketLongHeader.connection_id
    simp only [hw]
    show readFieldBE _ 1 8 = cid
    unfold readFieldBE
    rw [show (1 : Nat) = 0 + 1 from rfl, List.drop_succ_cons, List.drop_zero,
      List.take_left' (writeUIntBE_length cid 8), readBytesBE_writeUIntBE]
    exact Nat.mod_eq_of_lt (by simpa using hcid)
  · show (QUICPacketLongHeader.parse _).packet_number = pn
    unfold QUICPacketLongHeader.parse QUICPacketLongHeader.packet_number
    simp only [hw]
    show readFieldBE _ 9 4 = pn
    unfold readFieldBE
    rw [show (9 : Nat) = 8 + 1 from rfl, List.drop_succ_cons,
      List.drop_left' (writeUIntBE_length cid 8),
      List.take_left' (writeUIntBE_length pn 4), readBytesBE_writeUIntBE]
    exact Nat.mod_eq_of_lt (by simpa using hpn)
  · show (QUICPacketLongHeader.parse _).version = ver
    unfold QUICPacketLongHeader.parse QUICPacketLongHeader.version
    simp only [hw]
    show readFieldBE _ 13 4 = ver
    unfold readFieldBE
    rw [show (13 : Nat) = 12 + 1 from rfl, List.drop_succ_cons,
      show (12 : Nat) = 8 + 4 from rfl, ← List.drop_drop,
      List.drop_left' (writeUIntBE_length cid 8),
      List.drop_left' (writeUIntBE_length pn 4),
      List.take_of_length_le (le_of_eq (writeUIntBE_length ver 4)),
      readBytesBE_writeUIntBE]
    exact Nat.mod_eq_of_lt (by simpa using hver)

theorem QUICPacketShortHeaderType.toNat_bounds (s : QUICPacketShortHeaderType) :
    1 ≤ s.toNat ∧ s.toNat ≤ 3 := by
  cases s <;> simp [QUICPacketShortHeaderType.toNat]

theorem selWidth_of_toNat (s : QUICPacketShortHeaderType) :
    (if s.toNat = 1 then 1 else if s.toNat = 2 then 2
      else if s.toNat = 3 then 4 else 0) = s.width := by
  cases s <;> rfl

/-- The built width selector truncates nothing: the packet number fits the
width `pnTypeOfNumber` picks for it. -/
theorem pn_mod_width (pn : Nat) (h : pn < 2 ^ 32) :
    pn % 256 ^ (pnTypeOfNumber pn).width = pn := by
  unfold pnTypeOfNumber
  by_cases h1 : pn ≤ 0xFF
  · simp only [if_pos h1, QUICPacketShortHeaderType.width]
    norm_num
    omega
  · by_cases h2 : pn ≤ 0xFFFF
    · simp only [if_neg h1, if_pos h2, QUICPacketShortHeaderType.width]
      norm_num
      omega
    · simp only [if_neg h1, if_neg h2, QUICPacketShortHeaderType.width]
      norm_num
      omega

/-- Bit-level decoding of the short-header flag byte assembled by `store`. -/
theorem shortFlag_bits (cv kv s : Nat) (hcv : cv = 0 ∨ cv = 64)
    (hkv : kv = 0 ∨ kv = 32) (h1 : 1 ≤ s) (h3 : s ≤ 3) :
    ((cv + kv + s) % 256).testBit 7 = false ∧
    ((cv + kv + s) % 256).testBit 6 = decide (cv = 64) ∧
    ((cv + kv + s) % 256).testBit 5 = decide (kv = 32) ∧
    (cv + kv + s) % 256 % 32 = s := by
  rcases hcv with h | h <;> rcases hkv with h' | h' <;> subst h <;> subst h' <;>
    refine ⟨?_, ?_, ?_, ?_⟩ <;> simp [Nat.testBit_to_div_mod] <;> omega

theorem hdByte_cons (x : Nat) (l : List Nat) : hdByte (x :: l) = x % 256 :=
  rfl

theorem parse_short_has_connection_id (b : List Nat) :
    (QUICPacketShortHeader.parse b).has_connection_id = (hdByte b).testBit 6 :=
  rfl

theorem parse_short_key_phase (b : List Nat) :
    (QUICPacketShortHeader.parse b).key_phase =
      if (hdByte b).testBit 5 then QUICKeyPhase.PHASE_1
      else QUICKeyPhase.PHASE_0 :=
  rfl

theorem parse_short_pnLen (b : List Nat) :
    (QUICPacketShortHeader.parse b).packet_numberLen =
      (if hdByte b % 32 = 1 then 1 else if hdByte b % 32 = 2 then 2
        else if hdByte b % 32 = 3 then 4 else 0) :=
  rfl

theorem parse_short_connection_id (b : List Nat) :
    (QUICPacketShortHeader.parse b).connection_id = readFieldBE b 1 8 :=
  rfl

theorem parse_short_packet_number (b : List Nat) :
    (QUICPacketShortHeader.parse b).packet_number =
      readFieldBE b
        (if (QUICPacketShortHeader.parse b).has_connection_id then 9 else 1)
        (QUICPacketShortHeader.parse b).packet_numberLen :=
  rfl

theorem short_type_of_key_phase (h : QUICPacketShortHeader)
    (hp : h.key_phase = QUICKeyPhase.PHASE_0 ∨
      h.key_phase = QUICKeyPhase.PHASE_1) :
    h.type = (if h.key_phase = QUICKeyPhase.PHASE_0 then
      QUICPacketType.ONE_RTT_PROTECTED_KEY_PHASE_0
      else QUICPacketType.ONE_RTT_PROTECTED_KEY_PHASE_1) := by
  unfold QUICPacketShortHeader.type
  rcases hp with h' | h' <;> rw [h'] <;> simp

/-- `load ∘ store` on a built short header carrying a connection id. -/
theorem short_roundtrip2 (t : QUICPacketType) (cid pn : Nat)
    (payload : List Nat) (len : Nat)
    (ht : t = QUICPacketType.ONE_RTT_PROTECTED_KEY_PHASE_0 ∨
      t = QUICPacketType.ONE_RTT_PROTECTED_KEY_PHASE_1)
    (hcid : cid < 2 ^ 64) (hpn : pn < 2 ^ 32) :
    (QUICPacketHeader.load
        (QUICPacketShortHeader.build2 t cid pn payload len).store).type = t ∧
    (QUICPacketHeader.load
        (QUICPacketShortHeader.build2 t cid pn payload len).store).has_connection_id
      = true ∧
    (QUICPacketHeader.load
        (QUICPacketShortHeader.build2 t cid pn payload len).store).connection_id
      = cid ∧
    (QUICPacketHeader.load
        (QUICPacketShortHeader.build2 t cid pn payload len).store).packet_number
      = pn ∧
    (QUICPacketHeader.load
        (QUICPacketShortHeader.build2 t cid pn payload len).store).key_phase
      = keyPhaseOfType t := by
  have hs1 := (pnTypeOfNumber pn).toNat_bounds
  set s := pnTypeOfNumber pn with hsdef
  set kv : Nat := if keyPhaseOfType t = QUICKeyPhase.PHASE_1 then 32 else 0
    with hkvdef
  have hkv : kv = 0 ∨ kv = 32 := by
    rw [hkvdef]; split <;> simp
  have hw : (QUICPacketShortHeader.build2 t cid pn payload len).store =
      (64 + kv + s.toNat) :: (writeUIntBE cid 8 ++ writeUIntBE pn s.width) := by
    simp [QUICPacketShortHeader.build2, QUICPacketShortHeader.store, hkvdef,
      hsdef]
  obtain ⟨hb7, hb6, hb5, hlow⟩ :=
    shortFlag_bits 64 kv s.toNat (Or.inr rfl) hkv hs1.1 hs1.2
  have hload : QUICPacketHeader.load
      ((QUICPacketShortHeader.build2 t cid pn payload len).store) =
      QUICPacketHeader.short (QUICPacketShortHeader.parse
        ((QUICPacketShortHeader.build2 t cid pn payload len).store)) := by
    unfold QUICPacketHeader.load hasLongHeader
    rw [hw, hdByte_cons, hb7]
    simp
  have hcidbit : (QUICPacketShortHeader.parse
      ((QUICPacketShortHeader.build2 t cid pn payload len).store)).has_connection_id
      = true := by
    rw [parse_short_has_connection_id, hw, hdByte_cons, hb6]
    simp
  have hkp : (QUICPacketShortHeader.parse
      ((QUICPacketShortHeader.build2 t cid pn payload len).store)).key_phase
      = keyPhaseOfType t := by
    rw [parse_short_key_phase, hw, hdByte_cons, hb5]
    rcases ht with h | h <;> subst h <;> simp_all [keyPhaseOfType]
  have hlen : (QUICPacketShortHeader.parse
      ((QUICPacketShortHeader.build2 t cid pn payload len).store)).packet_numberLen
      = s.width := by
    rw [parse_short_pnLen, hw, hdByte_cons, hlow]
    exact selWidth_of_toNat s
  rw [hload]
  refine ⟨?_, hcidbit, ?_, ?_, hkp⟩
  · show (QUICPacketShortHeader.parse _).type = t
    rw [short_type_of_key_phase _ ?side, hkp]
    case side =>
      rw [hkp]
      rcases ht with h | h <;> subst h <;> simp [keyPhaseOfType]
    rcases ht with h | h <;> subst h <;> simp [keyPhaseOfType]
  · show (QUICPacketShortHeader.parse _).connection_id = cid
    rw [parse_short_connection_id, hw]
    unfold readFieldBE
    rw [show (1 : Nat) = 0 + 1 from rfl, List.drop_succ_cons, List.drop_zero,
      List.take_left' (writeUIntBE_length cid 8), readBytesBE_writeUIntBE]
    exact Nat.mod_eq_of_lt (by simpa using hcid)
  · show (QUICPacketShortHeader.parse _).packet_number = pn
    rw [parse_short_packet_number, hcidbit, hlen]
    simp only [if_true]
    rw [hw]
    unfold readFieldBE
    rw [show (9 : Nat) = 8 + 1 from rfl, List.drop_succ_cons,
      List.drop_left' (writeUIntBE_length cid 8),
      List.take_of_length_le (le_of_eq (writeUIntBE_length pn s.width)),
      readBytesBE_writeUIntBE, hsdef]
    exact pn_mod_width pn hpn

/-- `load ∘ store` on a built short header without a connection id. -/
theorem short_roundtrip1 (t : QUICPacketType) (pn : Nat)
    (payload : List Nat) (len : Nat)
    (ht : t = QUICPacketType.ONE_RTT_PROTECTED_KEY_PHASE_0 ∨
      t = QUICPacketType.ONE_RTT_PROTECTED_KEY_PHASE_1)
    (hpn : pn < 2 ^ 32) :
    (QUICPacketHeader.load
        (QUICPacketShortHeader.build1 t pn payload len).store).type = t ∧
    (QUICPacketHeader.load
        (QUICPacketShortHeader.build1 t pn payload len).store).has_connection_id
      = false ∧
    (QUICPacketHeader.load
        (QUICPacketShortHeader.build1 t pn payload len).store).packet_number
      = pn ∧
    (QUICPacketHeader.load
        (QUICPacketShortHeader.build1 t pn payload len).store).key_phase
      = keyPhaseOfType t := by
  have hs1 := (pnTypeOfNumber pn).toNat_bounds
  set s := pnTypeOfNumber pn with hsdef
  set kv : Nat := if keyPhaseOfType t = QUICKeyPhase.PHASE_1 then 32 else 0
    with hkvdef
  have hkv : kv = 0 ∨ kv = 32 := by
    rw [hkvdef]; split <;> simp
  have hw : (QUICPacketShortHeader.build1 t pn payload len).store =
      (0 + kv + s.toNat) :: writeUIntBE pn s.width := by
    simp [QUICPacketShortHeader.build1, QUICPacketShortHeader.store, hkvdef,
      hsdef]
  obtain ⟨hb7, hb6, hb5, hlow⟩ :=
    shortFlag_bits 0 kv s.toNat (Or.inl rfl) hkv hs1.1 hs1.2
  have hload : QUICPacketHeader.load
      ((QUICPacketShortHeader.build1 t pn payload len).store) =
      QUICPacketHeader.short (QUICPacketShortHeader.parse
        ((QUICPacketShortHeader.build1 t pn payload len).store)) := by
    unfold QUICPacketHeader.load hasLongHeader
    rw [hw, hdByte_cons, hb7]
    simp
  have hcidbit : (QUICPacketShortHeader.parse
      ((QUICPacketShortHeader.build1 t pn payload len).store)).has_connection_id
      = false := by
    rw [parse_short_has_connection_id, hw, hdByte_cons, hb6]
    simp
  have hkp : (QUICPacketShortHeader.parse
      ((QUICPacketShortHeader.build1 t pn payload len).store)).key_phase
      = keyPhaseOfType t := by
    rw [parse_short_key_phase, hw, hdByte_cons, hb5]
    rcases ht with h | h <;> subst h <;> simp_all [keyPhaseOfType]
  have hlen : (QUICPacketShortHeader.parse
      ((QUICPacketShortHeader.build1 t pn payload len).store)).packet_numberLen
      = s.width := by
    rw [parse_short_pnLen, hw, hdByte_cons, hlow]
    exact selWidth_of_toNat s
  rw [hload]
  refine ⟨?_, hcidbit, ?_, hkp⟩
  · show (QUICPacketShortHeader.parse _).type = t
    rw [short_type_of_key_phase _ ?side, hkp]
    case side =>
      rw [hkp]
      rcases ht with h | h <;> subst h <;> simp [keyPhaseOfType]
    rcases ht with h | h <;> subst h <;> simp [keyPhaseOfType]
  · show (QUICPacketShortHeader.parse _).packet_number = pn
    rw [parse_short_packet_number, hcidbit, hlen]
    simp only [Bool.false_eq_true, if_false]
    rw [hw]
    unfold readFieldBE
    rw [show (1 : Nat) = 0 + 1 from rfl, List.drop_succ_cons, List.drop_zero,
      List.take_of_length_le (le_of_eq (writeUIntBE_length pn s.width)),
      readBytesBE_writeUIntBE, hsdef]
    exact pn_mod_width pn hpn
/-! ## Claim theorems -/

theorem nextN_fst_range (N : Nat) : ∀ c : Nat, c + N ≤ 2 ^ 64 →
    ((QUICPacketNumberGenerator.mk c).nextN N).1 = List.range' c N := by
  induction N with
  | zero => intro c _; rfl
  | succ n ih =>
    intro c h
    rw [show ((QUICPacketNumberGenerator.mk c).nextN (n + 1)).1 =
      c :: ((QUICPacketNumberGenerator.mk ((c + 1) % 2 ^ 64)).nextN n).1
      from rfl]
    cases n with
    | zero => rfl
    | succ m =>
      rw [Nat.mod_eq_of_lt (show c + 1 < 2 ^ 64 by omega),
        ih (c + 1) (by omega)]
      rfl

/-- C10: each `next()` returns the counter then increments it by 1, so `N`
sequential calls on a fresh generator return `0, 1, …, N-1` (within the
64-bit packet-number space the spec assumes is never exhausted). -/
theorem C10_generator_next_consecutive (N : Nat) (hN : N ≤ 2 ^ 64) :
    (QUICPacketNumberGenerator.fresh.nextN N).1 = List.range N ∧
    ∀ g : QUICPacketNumberGenerator,
      g.next.1 = g.current ∧ g.next.2.current = (g.current + 1) % 2 ^ 64 := by
  constructor
  · rw [List.range_eq_range']
    exact nextN_fst_range N 0 (by omega)
  · intro g
    exact ⟨rfl, rfl⟩

/-- Witness for C10 at `N = 5`. -/
theorem C10_generator_next_consecutive_witness :
    5 ≤ 2 ^ 64 ∧ (QUICPacketNumberGenerator.fresh.nextN 5).1 = List.range 5 :=
  ⟨by norm_num, (C10_generator_next_consecutive 5 (by norm_num)).1⟩

theorem width_pnType (pn : Nat) : (pnTypeOfNumber pn).width =
    if pn ≤ 0xFF then 1 else if pn ≤ 0xFFFF then 2 else 4 := by
  unfold pnTypeOfNumber
  split_ifs <;> rfl

theorem build2_pnLen (t : QUICPacketType) (cid pn : Nat) (payload : List Nat)
    (len : Nat) :
    (QUICPacketShortHeader.build2 t cid pn payload len).packet_numberLen =
      (pnTypeOfNumber pn).width := by
  cases h : pnTypeOfNumber pn <;>
    simp [QUICPacketShortHeader.packet_numberLen, QUICPacketShortHeader.build2,
      h, QUICPacketShortHeaderType.width]

theorem build1_pnLen (t : QUICPacketType) (pn : Nat) (payload : List Nat)
    (len : Nat) :
    (QUICPacketShortHeader.build1 t pn payload len).packet_numberLen =
      (pnTypeOfNumber pn).width := by
  cases h : pnTypeOfNumber pn <;>
    simp [QUICPacketShortHeader.packet_numberLen, QUICPacketShortHeader.build1,
      h, QUICPacketShortHeaderType.width]

/-- C8: the serialized packet-number width of a built short header is a pure
function of the packet number's magnitude — `≤ 0xFF` gives 1 byte,
`≤ 0xFFFF` gives 2 bytes, anything larger 4 bytes — for both short-header
build overloads; the width bytes are exactly the big-endian truncation of
the packet number. -/
theorem C8_width_from_magnitude (t : QUICPacketType) (cid pn : Nat)
    (payload : List Nat) (len : Nat) :
    ((QUICPacketShortHeader.build2 t cid pn payload len).store).length =
      9 + (if pn ≤ 0xFF then 1 else if pn ≤ 0xFFFF then 2 else 4) ∧
    ((QUICPacketShortHeader.build2 t cid pn payload len).store).drop 9 =
      writeUIntBE pn (if pn ≤ 0xFF then 1 else if pn ≤ 0xFFFF then 2 else 4) ∧
    ((QUICPacketShortHeader.build1 t pn payload len).store).length =
      1 + (if pn ≤ 0xFF then 1 else if pn ≤ 0xFFFF then 2 else 4) ∧
    ((QUICPacketShortHeader.build1 t pn payload len).store).drop 1 =
      writeUIntBE pn (if pn ≤ 0xFF then 1 else if pn ≤ 0xFFFF then 2 else 4) := by
  rw [← width_pnType]
  refine ⟨?_, ?_, ?_, ?_⟩
  · simp [QUICPacketShortHeader.store, QUICPacketShortHeader.build2,
      writeUIntBE_length]
    omega
  · show ((64 + _ + _) :: (writeUIntBE cid 8 ++ _)).drop 9 = _
    rw [show (9 : Nat) = 8 + 1 from rfl, List.drop_succ_cons,
      List.drop_left' (writeUIntBE_length cid 8)]
    rfl
  · simp [QUICPacketShortHeader.store, QUICPacketShortHeader.build1,
      writeUIntBE_length]
    omega
  · show ((0 + _ + _) :: writeUIntBE pn _).drop 1 = _
    rw [show (1 : Nat) = 0 + 1 from rfl, List.drop_succ_cons, List.drop_zero]
    rfl

/-- C5: for every built header, `length()` equals the number of bytes
`store()` writes before the payload — the constant 17 for a long header,
and `1 + (8 if a connection id is present else 0) + packet-number width`
for a short header. -/
theorem C5_length_matches_store (t : QUICPacketType) (cid pn ver : Nat)
    (payload : List Nat) (len : Nat) :
    ((QUICPacketLongHeader.build t cid pn ver payload len).length = 17 ∧
      ((QUICPacketLongHeader.build t cid pn ver payload len).store).length
        = 17) ∧
    (((QUICPacketShortHeader.build2 t cid pn payload len).store).length =
        (QUICPacketShortHeader.build2 t cid pn payload len).length ∧
      (QUICPacketShortHeader.build2 t cid pn payload len).length =
        1 + 8 +
          (QUICPacketShortHeader.build2 t cid pn payload len).packet_numberLen) ∧
    (((QUICPacketShortHeader.build1 t pn payload len).store).length =
        (QUICPacketShortHeader.build1 t pn payload len).length ∧
      (QUICPacketShortHeader.build1 t pn payload len).length =
        1 + 0 +
          (QUICPacketShortHeader.build1 t pn payload len).packet_numberLen) := by
  refine ⟨⟨rfl, ?_⟩, ⟨?_, ?_⟩, ⟨?_, ?_⟩⟩
  · simp [QUICPacketLongHeader.store, QUICPacketLongHeader.build,
      writeUIntBE_length]
  · simp [QUICPacketShortHeader.store, QUICPacketShortHeader.length,
      QUICPacketShortHeader.has_connection_id, QUICPacketShortHeader.build2,
      writeUIntBE_length, build2_pnLen]
    cases h : pnTypeOfNumber pn <;>
      simp [h, QUICPacketShortHeaderType.width,
        QUICPacketShortHeader.packet_numberLen]
  · simp [QUICPacketShortHeader.length, QUICPacketShortHeader.has_connection_id,
      QUICPacketShortHeader.build2, build2_pnLen]
  · simp [QUICPacketShortHeader.store, QUICPacketShortHeader.length,
      QUICPacketShortHeader.has_connection_id, QUICPacketShortHeader.build1,
      writeUIntBE_length, build1_pnLen]
    cases h : pnTypeOfNumber pn <;>
      simp [h, QUICPacketShortHeaderType.width,
        QUICPacketShortHeader.packet_numberLen]
  · simp [QUICPacketShortHeader.length, QUICPacketShortHeader.has_connection_id,
      QUICPacketShortHeader.build1, build1_pnLen]

theorem buildLong_packet_type (t : QUICPacketType) (cid pn ver : Nat)
    (payload : List Nat) (len : Nat) (r : Bool) :
    (QUICPacket.buildLong t cid pn ver payload len r).type = t :=
  rfl

theorem buildShort2_packet_type (t : QUICPacketType) (cid pn : Nat)
    (payload : List Nat) (len : Nat) (r : Bool)
    (ht : t = QUICPacketType.ONE_RTT_PROTECTED_KEY_PHASE_0 ∨
      t = QUICPacketType.ONE_RTT_PROTECTED_KEY_PHASE_1) :
    (QUICPacket.buildShort2 t cid pn payload len r).type = t := by
  rcases ht with h | h <;> subst h <;> rfl

theorem buildShort1_packet_type (t : QUICPacketType) (pn : Nat)
    (payload : List Nat) (len : Nat) (r : Bool)
    (ht : t = QUICPacketType.ONE_RTT_PROTECTED_KEY_PHASE_0 ∨
      t = QUICPacketType.ONE_RTT_PROTECTED_KEY_PHASE_1) :
    (QUICPacket.buildShort1 t pn payload len r).type = t := by
  rcases ht with h | h <;> subst h <;> rfl

/-- C6: a built packet's total size is `header.length() + payload length`,
plus 8 exactly when the type is not payload-protected; and `payload_size()`
is total size minus header length, minus 8 only for non-protected types
(so it always recovers the built payload length). Long-header builds for
every type, short-header builds for the two 1-RTT types. -/
theorem C6_size_accounting (t t' : QUICPacketType) (cid pn ver : Nat)
    (payload : List Nat) (len : Nat) (r : Bool)
    (ht' : t' = QUICPacketType.ONE_RTT_PROTECTED_KEY_PHASE_0 ∨
      t' = QUICPacketType.ONE_RTT_PROTECTED_KEY_PHASE_1) :
    ((QUICPacket.buildLong t cid pn ver payload len r).size =
        (QUICPacket.buildLong t cid pn ver payload len r).header_size + len +
          (if isProtectedType t then 0 else 8) ∧
      (QUICPacket.buildLong t cid pn ver payload len r).payload_size =
        (QUICPacket.buildLong t cid pn ver payload len r).size -
          (QUICPacket.buildLong t cid pn ver payload len r).header_size -
          (if isProtectedType t then 0 else 8) ∧
      (QUICPacket.buildLong t cid pn ver payload len r).payload_size = len) ∧
    ((QUICPacket.buildShort2 t' cid pn payload len r).size =
        (QUICPacket.buildShort2 t' cid pn payload len r).header_size + len ∧
      (QUICPacket.buildShort2 t' cid pn payload len r).payload_size =
        (QUICPacket.buildShort2 t' cid pn payload len r).size -
          (QUICPacket.buildShort2 t' cid pn payload len r).header_size ∧
      (QUICPacket.buildShort2 t' cid pn payload len r).payload_size = len) ∧
    ((QUICPacket.buildShort1 t' pn payload len r).size =
        (QUICPacket.buildShort1 t' pn payload len r).header_size + len ∧
      (QUICPacket.buildShort1 t' pn payload len r).payload_size =
        (QUICPacket.buildShort1 t' pn payload len r).size -
          (QUICPacket.buildShort1 t' pn payload len r).header_size ∧
      (QUICPacket.buildShort1 t' pn payload len r).payload_size = len) := by
  have hp' : isProtectedType t' = true := by
    rcases ht' with h | h <;> subst h <;> rfl
  have htype := buildLong_packet_type t cid pn ver payload len r
  have htype2 := buildShort2_packet_type t' cid pn payload len r ht'
  have htype1 := buildShort1_packet_type t' pn payload len r ht'
  refine ⟨⟨rfl, ?_, ?_⟩, ⟨?_, ?_, ?_⟩, ⟨?_, ?_, ?_⟩⟩
  · unfold QUICPacket.payload_size
    rw [htype]
    by_cases hp : isProtectedType t <;>
      simp [hp, QUICPacket.header_size]
  · unfold QUICPacket.payload_size
    rw [htype]
    by_cases hp : isProtectedType t
    · simp [hp, QUICPacket.header_size, QUICPacket.buildLong, packetSize]
    · simp [hp, QUICPacket.header_size, QUICPacket.buildLong, packetSize]
      omega
  · simp [QUICPacket.buildShort2, packetSize, QUICPacket.header_size, hp']
  · unfold QUICPacket.payload_size
    rw [htype2]
    simp [hp', QUICPacket.header_size]
  · unfold QUICPacket.payload_size
    rw [htype2]
    simp [hp', QUICPacket.header_size, QUICPacket.buildShort2, packetSize]
  · simp [QUICPacket.buildShort1, packetSize, QUICPacket.header_size, hp']
  · unfold QUICPacket.payload_size
    rw [htype1]
    simp [hp', QUICPacket.header_size]
  · unfold QUICPacket.payload_size
    rw [htype1]
    simp [hp', QUICPacket.header_size, QUICPacket.buildShort1, packetSize]

/-- Witness for C6 at a protected and a non-protected concrete instance. -/
theorem C6_size_accounting_witness :
    (QUICPacketType.ONE_RTT_PROTECTED_KEY_PHASE_0 =
        QUICPacketType.ONE_RTT_PROTECTED_KEY_PHASE_0 ∨
      QUICPacketType.ONE_RTT_PROTECTED_KEY_PHASE_0 =
        QUICPacketType.ONE_RTT_PROTECTED_KEY_PHASE_1) ∧
    (QUICPacket.buildLong QUICPacketType.SERVER_CLEARTEXT 1 2 3 [7, 7] 2
        true).size =
      (QUICPacket.buildLong QUICPacketType.SERVER_CLEARTEXT 1 2 3 [7, 7] 2
          true).header_size + 2 +
        (if isProtectedType QUICPacketType.SERVER_CLEARTEXT then 0 else 8) ∧
    (QUICPacket.buildShort2 QUICPacketType.ONE_RTT_PROTECTED_KEY_PHASE_0 1 2
        [7, 7] 2 true).payload_size = 2 :=
  ⟨Or.inl rfl,
    (C6_size_accounting QUICPacketType.SERVER_CLEARTEXT
      QUICPacketType.ONE_RTT_PROTECTED_KEY_PHASE_0 1 2 3 [7, 7] 2 true
      (Or.inl rfl)).1.1,
    (C6_size_accounting QUICPacketType.SERVER_CLEARTEXT
      QUICPacketType.ONE_RTT_PROTECTED_KEY_PHASE_0 1 2 3 [7, 7] 2 true
      (Or.inl rfl)).2.1.2.2⟩

theorem parse_long_type (b : List Nat) :
    (QUICPacketLongHeader.parse b).type =
      (if hdByte b % 128 < QUICPacketType.UNINITIALIZED.toNat
        then QUICPacketType.fromNat (hdByte b % 128)
        else QUICPacketType.UNINITIALIZED) :=
  rfl

theorem toNat_fromNat (v : Nat) (h : v < 9) :
    (QUICPacketType.fromNat v).toNat = v := by
  interval_cases v <;> rfl

/-- C7: a parsed long header's `type()` is the type whose code is the low
7 bits of the first wire byte when that code is in the known range, and
`UNINITIALIZED` for any out-of-range code. -/
theorem C7_long_type_masking (b : List Nat) :
    (hdByte b % 128 < QUICPacketType.UNINITIALIZED.toNat →
      ((QUICPacketLongHeader.parse b).type).toNat = hdByte b % 128) ∧
    (QUICPacketType.UNINITIALIZED.toNat ≤ hdByte b % 128 →
      (QUICPacketLongHeader.parse b).type = QUICPacketType.UNINITIALIZED) := by
  constructor <;> intro h
  · rw [parse_long_type, if_pos h]
    exact toNat_fromNat _ h
  · rw [parse_long_type, if_neg (not_lt.mpr h)]

/-- Witness for C7: byte `0x83` (code 3, in range) and byte `0x89`
(code 9, out of range). -/
theorem C7_long_type_masking_witness :
    (hdByte [0x83] % 128 < QUICPacketType.UNINITIALIZED.toNat ∧
      ((QUICPacketLongHeader.parse [0x83]).type).toNat = hdByte [0x83] % 128) ∧
    (QUICPacketType.UNINITIALIZED.toNat ≤ hdByte [0x89] % 128 ∧
      (QUICPacketLongHeader.parse [0x89]).type = QUICPacketType.UNINITIALIZED) :=
  ⟨⟨by decide, (C7_long_type_masking [0x83]).1 (by decide)⟩,
    ⟨by decide, (C7_long_type_masking [0x89]).2 (by decide)⟩⟩

/-- Counterexample to C3: the flag bytes `0x01` and `0x05` agree on bits
0–1 (both `0b01`) and on every bit from bit 5 up, differing only in bit 2
(below bit 5), yet parse to different packet-number widths (1 vs 0),
because `_packet_numberLen` masks with `0x1F` (bits 0–4), not bits 0–1. -/
theorem C3_counterexample :
    0x05 % 4 = 0x01 % 4 ∧
    0x05 / 32 = 0x01 / 32 ∧
    (QUICPacketShortHeader.parse [0x01, 0]).packet_numberLen = 1 ∧
    (QUICPacketShortHeader.parse [0x05, 0]).packet_numberLen = 0 ∧
    (QUICPacketShortHeader.parse [0x05, 0]).packet_numberLen ≠
      (QUICPacketShortHeader.parse [0x01, 0]).packet_numberLen := by
  refine ⟨rfl, rfl, rfl, rfl, ?_⟩
  decide

/-- C3 amended: for every parsed short header, the packet-number width is
determined by the LOW FIVE bits of the flag byte (masked value 1 gives
1 byte, 2 gives 2 bytes, 3 gives 4 bytes, anything else hits the
assertion-failure default and gives 0), independent of bits 5–7. -/
theorem C3_amended_pn_width_low5 (hi lo : Nat) (rest : List Nat)
    (hlo : lo < 32) :
    (QUICPacketShortHeader.parse ((32 * hi + lo) :: rest)).packet_numberLen =
      (if lo = 1 then 1 else if lo = 2 then 2 else if lo = 3 then 4
        else 0) := by
  rw [parse_short_pnLen]
  simp only [hdByte_cons]
  have hm : (32 * hi + lo) % 256 % 32 = lo := by omega
  simp only [hm]

/-- Witness for the amended C3 at `hi = 5`, `lo = 5` (flag byte `0xA5`). -/
theorem C3_amended_pn_width_low5_witness :
    5 < 32 ∧
    (QUICPacketShortHeader.parse ((32 * 5 + 5) :: [0])).packet_numberLen =
      (if 5 = 1 then 1 else if 5 = 2 then 2 else if 5 = 3 then 4 else 0) :=
  ⟨by norm_num, C3_amended_pn_width_low5 5 5 [0] (by norm_num)⟩

/-- Counterexample to C4: `set_protected_payload` has no guard — calling it
on a packet of non-protected type records the bytes, and calling it a
second time silently records the new bytes. -/
theorem C4_counterexample :
    isProtectedType
      (QUICPacket.buildLong QUICPacketType.CLIENT_INITIAL 1 2 3 [7] 1
        true).type = false ∧
    ((QUICPacket.buildLong QUICPacketType.CLIENT_INITIAL 1 2 3 [7] 1
        true).set_protected_payload [4] 1).protectedPayload = some [4] ∧
    (((QUICPacket.buildLong QUICPacketType.CLIENT_INITIAL 1 2 3 [7] 1
        true).set_protected_payload [1, 2] 2).set_protected_payload [9]
        1).protectedPayload = some [9] :=
  ⟨rfl, rfl, rfl⟩

/-- C4 amended: `set_protected_payload` is an unconditional update — it
records the given ciphertext bytes and length on every call, whatever the
packet's type and whether or not a protected payload was already set,
leaving the rest of the packet unchanged. -/
theorem C4_amended_set_protected_payload_unguarded (p : QUICPacket)
    (bytes : List Nat) (n : Nat) :
    (p.set_protected_payload bytes n).protectedPayload = some bytes ∧
    (p.set_protected_payload bytes n).protectedPayloadSize = n ∧
    (p.set_protected_payload bytes n).header = p.header ∧
    (p.set_protected_payload bytes n).size = p.size ∧
    (p.set_protected_payload bytes n).is_retransmittable =
      p.is_retransmittable :=
  ⟨rfl, rfl, rfl, rfl, rfl⟩

/-- C1: for every packet type and every packet-number width boundary,
building a header (long build for any type; the two short builds for the
1-RTT types, which are the only ones the short form represents),
serializing with `store` and re-parsing with `load` reproduces the type,
the connection id (when present), the packet number, the version (when
present) and the key phase (when present). -/
theorem C1_store_load_roundtrip (t : QUICPacketType) (cid pn ver : Nat)
    (payload : List Nat) (len : Nat)
    (hpn : pn = 0x00 ∨ pn = 0xFF ∨ pn = 0x100 ∨ pn = 0xFFFF ∨
      pn = 0x10000 ∨ pn = 0xFFFFFFFF)
    (hcid : cid < 2 ^ 64) (hver : ver < 2 ^ 32) :
    ((QUICPacketHeader.load
        ((QUICPacketLongHeader.build t cid pn ver payload len).store)).type
        = t ∧
      (QUICPacketHeader.load
        ((QUICPacketLongHeader.build t cid pn ver payload len).store)).connection_id
        = cid ∧
      (QUICPacketHeader.load
        ((QUICPacketLongHeader.build t cid pn ver payload len).store)).packet_number
        = pn ∧
      (QUICPacketHeader.load
        ((QUICPacketLongHeader.build t cid pn ver payload len).store)).version
        = ver) ∧
    (∀ u : QUICPacketType,
      u = QUICPacketType.ONE_RTT_PROTECTED_KEY_PHASE_0 ∨
        u = QUICPacketType.ONE_RTT_PROTECTED_KEY_PHASE_1 →
      ((QUICPacketHeader.load
          ((QUICPacketShortHeader.build2 u cid pn payload len).store)).type
          = u ∧
        (QUICPacketHeader.load
          ((QUICPacketShortHeader.build2 u cid pn payload len).store)).connection_id
          = cid ∧
        (QUICPacketHeader.load
          ((QUICPacketShortHeader.build2 u cid pn payload len).store)).packet_number
          = pn ∧
        (QUICPacketHeader.load
          ((QUICPacketShortHeader.build2 u cid pn payload len).store)).key_phase
          = keyPhaseOfType u) ∧
      ((QUICPacketHeader.load
          ((QUICPacketShortHeader.build1 u pn payload len).store)).type = u ∧
        (QUICPacketHeader.load
          ((QUICPacketShortHeader.build1 u pn payload len).store)).packet_number
          = pn ∧
        (QUICPacketHeader.load
          ((QUICPacketShortHeader.build1 u pn payload len).store)).key_phase
          = keyPhaseOfType u)) := by
  have hpn32 : pn < 2 ^ 32 := by
    rcases hpn with rfl | rfl | rfl | rfl | rfl | rfl <;> norm_num
  constructor
  · obtain ⟨h1, h2, h3, h4⟩ := long_roundtrip t cid pn ver payload len hcid
      hpn32 hver
    exact ⟨h1, h2, h3, h4⟩
  · intro u hu
    obtain ⟨g1, _, g3, g4, g5⟩ := short_roundtrip2 u cid pn payload len hu
      hcid hpn32
    obtain ⟨k1, _, k3, k4⟩ := short_roundtrip1 u pn payload len hu hpn32
    exact ⟨⟨g1, g3, g4, g5⟩, ⟨k1, k3, k4⟩⟩

/-- Witness for C1 at the boundary `pn = 0xFFFFFFFF`. -/
theorem C1_store_load_roundtrip_witness :
    (QUICPacketHeader.load
      ((QUICPacketLongHeader.build QUICPacketType.SERVER_CLEARTEXT
        0x0102030405060708 0xFFFFFFFF 77 [] 0).store)).packet_number
      = 0xFFFFFFFF ∧
    (QUICPacketHeader.load
      ((QUICPacketShortHeader.build2
        QUICPacketType.ONE_RTT_PROTECTED_KEY_PHASE_1 0x0102030405060708
        0xFFFFFFFF [] 0).store)).type
      = QUICPacketType.ONE_RTT_PROTECTED_KEY_PHASE_1 := by
  have h := C1_store_load_roundtrip QUICPacketType.SERVER_CLEARTEXT
    0x0102030405060708 0xFFFFFFFF 77 [] 0 (by norm_num) (by norm_num)
    (by norm_num)
  exact ⟨h.1.2.2.1, (h.2 QUICPacketType.ONE_RTT_PROTECTED_KEY_PHASE_1
    (Or.inr rfl)).1.1⟩

theorem flatten_write_length (vs : List Nat) :
    ((vs.map (fun v => writeUIntBE v 4)).flatten).length = 4 * vs.length := by
  induction vs with
  | nil => rfl
  | cons v tl ih =>
    simp only [List.map_cons, List.flatten_cons, List.length_append,
      writeUIntBE_length, ih, List.length_cons]
    ring

theorem flatten_write_chunk (vs : List Nat) : ∀ i, (hi : i < vs.length) →
    readFieldBE ((vs.map (fun v => writeUIntBE v 4)).flatten) (4 * i) 4 =
      vs[i] % 2 ^ 32 := by
  induction vs with
  | nil => intro i hi; simp at hi
  | cons v tl ih =>
    intro i hi
    cases i with
    | zero =>
      simp only [List.map_cons, List.flatten_cons, Nat.mul_zero,
        List.getElem_cons_zero]
      rw [readFieldBE_zero_write]
      norm_num
    | succ j =>
      simp only [List.map_cons, List.flatten_cons, List.getElem_cons_succ]
      unfold readFieldBE
      rw [show 4 * (j + 1) = 4 + 4 * j by ring, ← List.drop_drop,
        List.drop_left' (writeUIntBE_length v 4)]
      have := ih j (by simpa using Nat.lt_of_succ_lt_succ hi)
      unfold readFieldBE at this
      exact this

/-- C9: `create_version_negotiation_packet` echoes the client packet's
connection id, packet number and version, is non-retransmittable, and its
payload is exactly `4 × (number of supported versions)` bytes, the `i`-th
4-byte chunk decoding to the `i`-th supported version, in list order. -/
theorem C9_version_negotiation (supported : List Nat) (pkt : QUICPacket) :
    (QUICPacketFactory.create_version_negotiation_packet supported pkt).type
      = QUICPacketType.VERSION_NEGOTIATION ∧
    (QUICPacketFactory.create_version_negotiation_packet supported
      pkt).connection_id = pkt.connection_id ∧
    (QUICPacketFactory.create_version_negotiation_packet supported
      pkt).packet_number = pkt.packet_number ∧
    (QUICPacketFactory.create_version_negotiation_packet supported
      pkt).version = pkt.version ∧
    (QUICPacketFactory.create_version_negotiation_packet supported
      pkt).is_retransmittable = false ∧
    ((QUICPacketFactory.create_version_negotiation_packet supported
      pkt).payload).length = 4 * supported.length ∧
    ∀ i, (hi : i < supported.length) →
      readFieldBE
        ((QUICPacketFactory.create_version_negotiation_packet supported
          pkt).payload) (4 * i) 4 = supported[i] % 2 ^ 32 := by
  refine ⟨rfl, rfl, rfl, rfl, rfl, ?_, ?_⟩
  · exact flatten_write_length supported
  · exact flatten_write_chunk supported

/-- Witness for C9 with two supported versions. -/
theorem C9_version_negotiation_witness :
    (QUICPacketFactory.create_version_negotiation_packet [0xff000005, 7]
      (QUICPacket.buildLong QUICPacketType.CLIENT_INITIAL 77 42 9 [] 0
        true)).connection_id = 77 ∧
    1 < 2 ∧
    readFieldBE
      ((QUICPacketFactory.create_version_negotiation_packet [0xff000005, 7]
        (QUICPacket.buildLong QUICPacketType.CLIENT_INITIAL 77 42 9 [] 0
          true)).payload) (4 * 1) 4 = 7 % 2 ^ 32 := by
  have h := C9_version_negotiation [0xff000005, 7]
    (QUICPacket.buildLong QUICPacketType.CLIENT_INITIAL 77 42 9 [] 0 true)
  exact ⟨h.2.1, by norm_num, h.2.2.2.2.2.2 1 (by norm_num)⟩

/-- C2: `create_server_protected_packet` returns a packet exactly when the
cipher call succeeds; on success, the returned packet's `store()` output
is its header bytes followed by exactly the cipher's ciphertext (no
checksum), and on failure no packet is returned. -/
theorem C2_create_server_protected (f : QUICPacketFactory)
    (crypto : QUICCrypto) (cid : Nat) (payload : List Nat) (len : Nat)
    (r : Bool) :
    ((f.create_server_protected_packet crypto cid payload len r).1 = none ↔
      serverProtectedCryptoCall f crypto cid payload len r = none) ∧
    ∀ ct, serverProtectedCryptoCall f crypto cid payload len r = some ct →
      ∃ q, (f.create_server_protected_packet crypto cid payload len r).1
          = some q ∧
        q.store = q.store_header ++ ct := by
  have hpk : ∀ hc : QUICPacket,
      (hc.set_protected_payload ([] : List Nat) 0).header = hc.header := by
    intro hc; rfl
  constructor
  · unfold QUICPacketFactory.create_server_protected_packet
      serverProtectedCryptoCall
    cases hc : crypto
        (QUICPacket.buildShort2 QUICPacketType.ONE_RTT_PROTECTED_KEY_PHASE_0
          cid f.packetNumberGenerator.next.1 payload len r).payload
        (QUICPacket.buildShort2 QUICPacketType.ONE_RTT_PROTECTED_KEY_PHASE_0
          cid f.packetNumberGenerator.next.1 payload len r).payload_size
        (QUICPacket.buildShort2 QUICPacketType.ONE_RTT_PROTECTED_KEY_PHASE_0
          cid f.packetNumberGenerator.next.1 payload len r).packet_number
        (QUICPacket.buildShort2 QUICPacketType.ONE_RTT_PROTECTED_KEY_PHASE_0
          cid f.packetNumberGenerator.next.1 payload len r).store_header
        ((QUICPacket.buildShort2 QUICPacketType.ONE_RTT_PROTECTED_KEY_PHASE_0
          cid f.packetNumberGenerator.next.1 payload len r).store_header).length
        (QUICPacket.buildShort2 QUICPacketType.ONE_RTT_PROTECTED_KEY_PHASE_0
          cid f.packetNumberGenerator.next.1 payload len r).key_phase with
    | none => simp [hc]
    | some ct => simp [hc]
  · intro ct hct
    unfold serverProtectedCryptoCall at hct
    refine ⟨(QUICPacket.buildShort2
      QUICPacketType.ONE_RTT_PROTECTED_KEY_PHASE_0 cid
      f.packetNumberGenerator.next.1 payload len r).set_protected_payload ct
      ct.length, ?_, ?_⟩
    · unfold QUICPacketFactory.create_server_protected_packet
      simp only [QUICPacketNumberGenerator.next] at hct ⊢
      rw [hct]
    · have hqt : ((QUICPacket.buildShort2
          QUICPacketType.ONE_RTT_PROTECTED_KEY_PHASE_0 cid
          f.packetNumberGenerator.next.1 payload len r).set_protected_payload
          ct ct.length).type = QUICPacketType.ONE_RTT_PROTECTED_KEY_PHASE_0 :=
        buildShort2_packet_type QUICPacketType.ONE_RTT_PROTECTED_KEY_PHASE_0
          cid f.packetNumberGenerator.next.1 payload len r (Or.inl rfl)
      unfold QUICPacket.store
      rw [hqt]
      simp [isProtectedType, QUICPacket.set_protected_payload,
        QUICPacket.store_header, List.take_length]

/-- Witness for C2: an always-succeeding and an always-failing cipher stub. -/
theorem C2_create_server_protected_witness :
    ((QUICPacketFactory.mk 5
        QUICPacketNumberGenerator.fresh).create_server_protected_packet
      cryptoAlwaysFail 3 [1, 2] 2 true).1 = none ∧
    ∃ q, ((QUICPacketFactory.mk 5
          QUICPacketNumberGenerator.fresh).create_server_protected_packet
        cryptoAlwaysOk 3 [1, 2] 2 true).1 = some q ∧
      q.store = q.store_header ++ [9, 8, 7] := by
  constructor
  · exact (C2_create_server_protected
      (QUICPacketFactory.mk 5 QUICPacketNumberGenerator.fresh)
      cryptoAlwaysFail 3 [1, 2] 2 true).1.mpr rfl
  · exact (C2_create_server_protected
      (QUICPacketFactory.mk 5 QUICPacketNumberGenerator.fresh)
      cryptoAlwaysOk 3 [1, 2] 2 true).2 [9, 8, 7] rfl

end QUIC
